import Mathlib

/-!
Verification development for the EEG scoring backend.

Shallow embedding of the backend modules:
  * `backend/model_interface.py`  — the scoring function;
  * `backend/eeg_processor.py`    — per-sample band-power reduction;
  * `backend/scoring_server.py`   — app state, windowed aggregation,
    recording lifecycle;
  * `backend/cortex_client.py`    — frame demultiplexing and headset queries.

Python floats are modelled as real numbers (`ℝ`) where a transcendental
function (`math.log`) is involved, and as rationals (`ℚ`) in the purely
arithmetic data pipeline, so that the pipeline stays executable.
-/

namespace MvpBackup

/-- Python `int(x)` truncates toward zero. For `x ≥ 0` this is the floor,
for `x < 0` the ceiling. -/
noncomputable def pyTrunc (x : ℝ) : ℤ :=
  if 0 ≤ x then ⌊x⌋ else ⌈x⌉

/-- Python `int(q)` on a rational value: truncation toward zero. -/
def ratTrunc (q : ℚ) : ℤ :=
  if 0 ≤ q then ⌊q⌋ else ⌈q⌉

/-- Constant from `backend/model_interface.py`: the population baseline
alpha/beta ratio, computed offline. (Name kept lowercase; the Python
constant is the same identifier in upper case.) -/
noncomputable def population_baseline_alpha_beta_ratio : ℝ := 12.4438

/-- Embedding of `get_score_from_ratio` from `backend/model_interface.py`.
The Python function is pure (no global state, no randomness): it computes
`safe_ratio = max(0.01, r)`, `log_diff = ln(safe_ratio / BASELINE)`,
`score = 50 + log_diff * 10`, clamps to `[0, 100]` and truncates with
`int(...)`. -/
noncomputable def get_score_from_ratio (current_alpha_beta_ratio : ℝ) : ℤ :=
  let safe_ratio := max 0.01 current_alpha_beta_ratio
  let scale_factor : ℝ := 10
  let log_diff := Real.log (safe_ratio / population_baseline_alpha_beta_ratio)
  let score := 50 + log_diff * scale_factor
  let clamped_score := max 0 (min 100 score)
  pyTrunc clamped_score

/-- Modelled from the spec (§4.6): the scoring formula exactly as the spec
words it — `clamp(50 + 10 * ln(max(r, 0.01) / 12.4438), 0, 100)` truncated
toward zero. Used to compare the code's function against the spec's. -/
noncomputable def spec_score_formula (r : ℝ) : ℤ :=
  pyTrunc (max 0 (min 100 (50 + 10 * Real.log (max r 0.01 / 12.4438))))

/-- The clamped score before truncation, for reasoning. -/
noncomputable def clamped_score_real (r : ℝ) : ℝ :=
  max 0 (min 100 (50 + Real.log (max 0.01 r / population_baseline_alpha_beta_ratio) * 10))

/-- The field `data["pow"]` of an inbound packet as tested by
`process_band_power_data`: absent, present but not a list, or a list of
floats (modelled as rationals). -/
inductive PowField
  | missing
  | notList
  | values (l : List ℚ)
  deriving DecidableEq

/-- One telemetry packet as consumed by `process_band_power_data`; only the
`pow` entry of the dict is inspected by the processor. -/
structure PowPacket where
  pow : PowField
  deriving DecidableEq

/-- Channel names from `backend/eeg_processor.py`, in device order. -/
def CHANNELS : List String :=
  ["AF3", "F7", "F3", "FC5", "T7", "P7", "O1", "O2", "P8", "T8", "FC6", "F4", "F8", "AF4"]

/-- Band names from `backend/eeg_processor.py`, in device order. -/
def BANDS : List String := ["theta", "alpha", "betaL", "betaH", "gamma"]

/-- The sequence of band labels that the nested
`for channel in CHANNELS: for band in BANDS:` loop pairs with the flat
`pow` list, element by element. -/
def band_sequence : List String := CHANNELS.flatMap fun _ => BANDS

/-- One step of the accumulation loop in `process_band_power_data`: the
running `(total_alpha, total_beta)` pair updated by one `(band, power)`
pair. -/
def band_step (acc : ℚ × ℚ) (bp : String × ℚ) : ℚ × ℚ :=
  if bp.1 = "alpha" then (acc.1 + bp.2, acc.2)
  else if bp.1 = "betaL" ∨ bp.1 = "betaH" then (acc.1, acc.2 + bp.2)
  else acc

/-- The `(total_alpha, total_beta)` sums computed by the loop in
`process_band_power_data` over a flat list of power values. -/
def band_totals (power_values : List ℚ) : ℚ × ℚ :=
  (band_sequence.zip power_values).foldl band_step (0, 0)

/-- Embedding of `process_band_power_data` from `backend/eeg_processor.py`:
reject a missing or non-list `pow` field, reject a length other than
`len(CHANNELS) * len(BANDS)` (= 70), sum the alpha band and the two beta
sub-bands over all channels, reject a zero beta total, else return the
alpha/beta ratio. -/
def process_band_power_data (data : PowPacket) : Option ℚ :=
  match data.pow with
  | .missing => none
  | .notList => none
  | .values power_values =>
    if power_values.length = CHANNELS.length * BANDS.length then
      let totals := band_totals power_values
      if totals.2 = 0 then none
      else some (totals.1 / totals.2)
    else none

/-- Events emitted over the socket by `backend/scoring_server.py`
(`socketio.emit` calls), with their payloads. -/
inductive Event
  | new_score (score : ℤ)
  | recording_started (duration : ℚ)
  | recording_ended (average_score : ℤ)
  | recording_cancelled
  | server_disconnected
  deriving DecidableEq

/-- The connection-scoped fields of `CortexClient` that the server state
machine reads: the captured auth token, headset id and session id. -/
structure CortexClientState where
  auth_token : Option String
  headset_id : Option String
  session_id : Option String
  deriving DecidableEq

/-- Embedding of `CortexClient.is_session_active`: a session id has been
captured. -/
def is_session_active (c : CortexClientState) : Bool :=
  c.session_id.isSome

/-- Embedding of the `AppState` object of `backend/scoring_server.py`.
Thread and timer handles are modelled by their presence. -/
structure AppState where
  cortex_client : Option CortexClientState
  session_timer : Bool
  processing_thread : Bool
  stop_processing : Bool
  scores : List ℤ
  data_buffer : List PowPacket
  is_recording : Bool
  deriving DecidableEq

/-- Embedding of `AppState.reset_recording`: stop and join the worker,
cancel the timer, clear the buffer, scores and recording flag, drop the
timer and thread handles and clear the stop flag. `cortex_client` is not
touched. -/
def AppState.reset_recording (s : AppState) : AppState :=
  { cortex_client := s.cortex_client
    session_timer := false
    processing_thread := false
    stop_processing := false
    scores := []
    data_buffer := []
    is_recording := false }

/-- The guard `state.cortex_client and state.cortex_client.is_session_active()`
used by `start_recording`. -/
def client_session_active (s : AppState) : Bool :=
  match s.cortex_client with
  | none => false
  | some c => is_session_active c

/-- Embedding of `power_data_callback`: discard the packet when no recording
is active, otherwise append it to the buffer (under the buffer lock). -/
def power_data_callback (data : PowPacket) (s : AppState) : AppState :=
  if s.is_recording then { s with data_buffer := s.data_buffer ++ [data] }
  else s

/-- The mean as computed by `np.mean` on a list of floats. -/
def np_mean (l : List ℚ) : ℚ := l.sum / l.length

/-- Embedding of one iteration of the loop body of `process_data_window`
(after the 1s sleep): under the lock, if the buffer is empty do nothing;
otherwise copy it to `local_buffer` and install a fresh empty buffer; then,
outside the lock, map `process_band_power_data` over the copied packets,
keep the non-`None` ratios, and if any remain score their mean, append the
score to the history and emit it as a `new_score` event. -/
noncomputable def process_data_window_tick (s : AppState) : AppState × List Event :=
  if s.data_buffer = [] then (s, [])
  else
    let local_buffer := s.data_buffer
    let s' := { s with data_buffer := [] }
    let ratios := local_buffer.map process_band_power_data
    let valid_ratios := ratios.filterMap id
    if valid_ratios = [] then (s', [])
    else
      let average_ratio := np_mean valid_ratios
      let score := get_score_from_ratio (average_ratio : ℝ)
      ({ s' with scores := s'.scores ++ [score] }, [Event.new_score score])

/-- Embedding of `end_recording_session`: compute
`int(np.mean(state.scores)) if state.scores else 0`, emit `recording_ended`
with it, then perform a recording-only reset. -/
def end_recording_session (s : AppState) : AppState × List Event :=
  let avg_score : ℤ :=
    if s.scores = [] then 0
    else ratTrunc ((s.scores.sum : ℚ) / (s.scores.length : ℚ))
  (s.reset_recording, [Event.recording_ended avg_score])

/-- Result of the `/api/start_recording` endpoint. -/
inductive ApiResult
  | ok
  | device_not_connected
  | already_recording
  deriving DecidableEq

/-- Embedding of the `start_recording` endpoint: reject when no client with
an active session exists, reject when already recording (both without
touching any state and without emitting), otherwise reset the recording
state, set the flag, start the worker thread and the session timer, and
emit `recording_started`. -/
def start_recording (duration : ℚ) (s : AppState) : ApiResult × AppState × List Event :=
  if ¬ client_session_active s then (.device_not_connected, s, [])
  else if s.is_recording then (.already_recording, s, [])
  else
    let s1 := s.reset_recording
    let s2 := { s1 with
      is_recording := true
      processing_thread := true
      session_timer := true }
    (.ok, s2, [Event.recording_started duration])

/-- One operation on the shared sample buffer: an append performed by
`power_data_callback` while recording, or a cadence drain performed at the
top of `process_data_window`'s loop body. Both run under `buffer_lock`, so
an execution is a sequence of these operations. -/
inductive BufOp
  | append (p : PowPacket)
  | drain

/-- The buffer together with the windows drained so far (each drained
window is the `local_buffer` handed to reduction). -/
structure BufTraceState where
  buffer : List PowPacket
  windows : List (List PowPacket)
  deriving DecidableEq

/-- Effect of one buffer operation: an append pushes at the end; a drain
hands the whole current buffer to reduction as the next window and installs
a fresh empty buffer. -/
def buf_op_step (st : BufTraceState) : BufOp → BufTraceState
  | .append p => { st with buffer := st.buffer ++ [p] }
  | .drain => { buffer := [], windows := st.windows ++ [st.buffer] }

/-- Run a sequence of buffer operations from the initial empty state. -/
def run_buf_trace (ops : List BufOp) : BufTraceState :=
  ops.foldl buf_op_step ⟨[], []⟩

/-- The samples appended over a trace, in order. -/
def appended_samples (ops : List BufOp) : List PowPacket :=
  ops.filterMap fun op =>
    match op with
    | .append p => some p
    | .drain => none

/-- An inbound frame as inspected by `CortexClient._receive_loop`: an
optional `id` entry, an optional `sid` entry, the names of the other keys
present, and whether a `warning` entry is present. -/
structure Frame where
  id : Option Nat
  sid : Option String
  stream_keys : List String
  warning : Bool
  deriving DecidableEq

/-- The fixed allow-list of telemetry keys checked by the receive loop. -/
def stream_key_allow_list : List String := ["eeg", "pow", "mot", "dev", "eq", "met"]

/-- The check `any(key in data for key in ['eeg', 'pow', 'mot', 'dev', 'eq', 'met'])`. -/
def has_stream_key (f : Frame) : Bool :=
  stream_key_allow_list.any fun k => f.stream_keys.contains k

/-- How the receive loop routes one frame. -/
inductive RouteAction
  | store_reply (id : Nat)
  | telemetry
  | log_warning
  | discard
  deriving DecidableEq

/-- Embedding of the classification chain in `CortexClient._receive_loop`:
`if 'id' in data` store the frame in the reply table under that id;
`elif 'sid' in data and self.data_stream_callback` invoke the callback when
an allow-listed key is present (and silently drop the frame otherwise);
`elif 'warning' in data` log it; else log as unhandled and drop. -/
def receive_loop_classify (callback_set : Bool) (f : Frame) : RouteAction :=
  match f.id with
  | some i => .store_reply i
  | none =>
    if f.sid.isSome && callback_set then
      if has_stream_key f then .telemetry else .discard
    else if f.warning then .log_warning
    else .discard

/-- Modelled from the spec (§4.3): the classification rule as the spec
words it — (1) a reply identifier matching an outstanding request is
stored; (2) otherwise a session identifier plus an allow-listed field goes
to the telemetry callback; (3) otherwise a `warning` field is logged;
(4) otherwise the frame is discarded. -/
def spec_classify (outstanding : List Nat) (f : Frame) : RouteAction :=
  match f.id with
  | some i =>
    if outstanding.contains i then .store_reply i
    else if f.sid.isSome && has_stream_key f then .telemetry
    else if f.warning then .log_warning
    else .discard
  | none =>
    if f.sid.isSome && has_stream_key f then .telemetry
    else if f.warning then .log_warning
    else .discard

/-- Errors surfaced by the cortex client RPC helpers. -/
inductive CortexError
  | api_error (code : ℤ) (msg : String)
  | request_timeout
  | no_headsets_found
  deriving DecidableEq

/-- The reply eventually observed by `_wait_for_response` for a
`queryHeadsets` request: a result list, an error frame, or no reply within
the timeout. -/
inductive RpcOutcome
  | result (headsets : List String)
  | rpc_error (code : ℤ) (msg : String)
  | timed_out
  deriving DecidableEq

/-- Embedding of `_wait_for_response` for a `queryHeadsets` call: an
`error` field raises, a timeout raises, otherwise the `result` payload is
returned. -/
def wait_for_response_headsets : RpcOutcome → Except CortexError (List String)
  | .result hs => .ok hs
  | .rpc_error c m => .error (.api_error c m)
  | .timed_out => .error .request_timeout

/-- Embedding of `CortexClient.query_headsets`: send `queryHeadsets`, wait,
and return the list exactly as received — there is no emptiness check. -/
def query_headsets (reply : RpcOutcome) : Except CortexError (List String) :=
  wait_for_response_headsets reply

/-- Embedding of the `queryHeadsets` step of
`CortexClient.connect_and_authorize`: same call, but an empty (falsy)
result raises `ConnectionError` (`NoHeadsetsFound`). -/
def connect_and_authorize_query (reply : RpcOutcome) : Except CortexError (List String) :=
  match wait_for_response_headsets reply with
  | .error e => .error e
  | .ok headsets => if headsets = [] then .error .no_headsets_found else .ok headsets

/-- A state with no cortex client at all. -/
def state_no_client : AppState :=
  { cortex_client := none
    session_timer := false
    processing_thread := false
    stop_processing := false
    scores := []
    data_buffer := []
    is_recording := false }

/-- A state with an active session and a recording already in progress. -/
def state_mid_recording : AppState :=
  { cortex_client := some ⟨some "token", some "headset", some "session"⟩
    session_timer := true
    processing_thread := true
    stop_processing := false
    scores := [40]
    data_buffer := []
    is_recording := true }

/-- A state whose buffered window contains a single malformed packet. -/
def state_malformed : AppState :=
  { cortex_client := some ⟨some "token", some "headset", some "session"⟩
    session_timer := true
    processing_thread := true
    stop_processing := false
    scores := [33]
    data_buffer := [⟨PowField.missing⟩]
    is_recording := true }

/-- Modelled from the spec (§4.5): the `(sumAlpha, sumBeta)` contribution
of one sample — wrong-shape samples are rejected per-sample and a sample
whose summed beta is zero contributes nothing. -/
def spec_sample_sums (d : PowPacket) : Option (ℚ × ℚ) :=
  match d.pow with
  | .values l =>
    if l.length = 70 then
      if (band_totals l).2 = 0 then none else some (band_totals l)
    else none
  | _ => none

/-- Modelled from the spec (§4.5 and the §8 round-trip property): sum alpha
across all channels and samples in the window, likewise beta, and score the
ratio `totalAlpha / totalBeta` of the window-wide sums; no score when no
sample yields a usable ratio. -/
noncomputable def spec_window_score (w : List PowPacket) : Option ℤ :=
  if w.filterMap spec_sample_sums = [] then none
  else some (get_score_from_ratio
    ((((w.filterMap spec_sample_sums).map Prod.fst).sum /
      ((w.filterMap spec_sample_sums).map Prod.snd).sum : ℚ) : ℝ))

/-- A packet with alpha 24.8876 and beta 1 on the first channel, all other
readings zero (per-sample ratio 24.8876). -/
def pktA : PowPacket :=
  ⟨PowField.values ([0, 24.8876, 1, 0, 0] ++ List.replicate 65 0)⟩

/-- A packet with alpha 0 and beta 10000 on the first channel, all other
readings zero (per-sample ratio 0). -/
def pktB : PowPacket :=
  ⟨PowField.values ([0, 0, 10000, 0, 0] ++ List.replicate 65 0)⟩

/-- A packet with alpha 1 and beta 1 on the first channel (ratio 1). -/
def pktW : PowPacket :=
  ⟨PowField.values ([0, 1, 1, 0, 0] ++ List.replicate 65 0)⟩

/-- A mid-recording state whose pending window holds `pktA` and `pktB`.
The mean of the per-sample ratios is `(24.8876 + 0) / 2 = 12.4438`, the
baseline, while the ratio of the window-wide sums is
`24.8876 / 10001 < 0.01`. -/
def state_two_packets : AppState :=
  { cortex_client := some ⟨some "token", some "headset", some "session"⟩
    session_timer := true
    processing_thread := true
    stop_processing := false
    scores := []
    data_buffer := [pktA, pktB]
    is_recording := true }

/-- A mid-recording state whose pending window holds the single packet
`pktW`. -/
def state_one_packet : AppState :=
  { cortex_client := some ⟨some "token", some "headset", some "session"⟩
    session_timer := true
    processing_thread := true
    stop_processing := false
    scores := [7]
    data_buffer := [pktW]
    is_recording := true }

/-- A state whose recording collected the scores 1 and 2 (mean 3/2). -/
def state_scores_one_two : AppState :=
  { cortex_client := some ⟨some "token", some "headset", some "session"⟩
    session_timer := true
    processing_thread := true
    stop_processing := false
    scores := [1, 2]
    data_buffer := []
    is_recording := true }

theorem pyTrunc_eq_floor {x : ℝ} (h : 0 ≤ x) : pyTrunc x = ⌊x⌋ := by
  simp [pyTrunc, h]

theorem clamped_score_real_nonneg (r : ℝ) : 0 ≤ clamped_score_real r :=
  le_max_left 0 _

theorem clamped_score_real_le_100 (r : ℝ) : clamped_score_real r ≤ 100 :=
  max_le (by norm_num) (min_le_left _ _)

theorem get_score_from_ratio_eq_clamped (r : ℝ) :
    get_score_from_ratio r = ⌊clamped_score_real r⌋ := by
  rw [get_score_from_ratio, clamped_score_real,
    pyTrunc_eq_floor (le_max_left 0 _)]

theorem clamped_score_real_mono : Monotone clamped_score_real := by
  intro r s hrs
  unfold clamped_score_real
  have hpos : (0 : ℝ) < population_baseline_alpha_beta_ratio := by
    unfold population_baseline_alpha_beta_ratio; norm_num
  have h1 : max 0.01 r ≤ max 0.01 s := max_le_max le_rfl hrs
  have h2 : max 0.01 r / population_baseline_alpha_beta_ratio ≤
      max 0.01 s / population_baseline_alpha_beta_ratio :=
    div_le_div_of_nonneg_right h1 hpos.le
  have h0 : (0 : ℝ) < max 0.01 r / population_baseline_alpha_beta_ratio := by
    apply div_pos _ hpos
    exact lt_max_of_lt_left (by norm_num)
  have h3 : Real.log (max 0.01 r / population_baseline_alpha_beta_ratio) ≤
      Real.log (max 0.01 s / population_baseline_alpha_beta_ratio) :=
    Real.log_le_log h0 h2
  have h4 : 50 + Real.log (max 0.01 r / population_baseline_alpha_beta_ratio) * 10 ≤
      50 + Real.log (max 0.01 s / population_baseline_alpha_beta_ratio) * 10 := by
    linarith
  exact max_le_max le_rfl (min_le_min le_rfl h4)

theorem score_at_baseline :
    get_score_from_ratio population_baseline_alpha_beta_ratio = 50 := by
  rw [get_score_from_ratio_eq_clamped]
  unfold clamped_score_real population_baseline_alpha_beta_ratio
  rw [max_eq_right (by norm_num : (0.01 : ℝ) ≤ 12.4438),
    div_self (by norm_num : (12.4438 : ℝ) ≠ 0), Real.log_one]
  norm_num

theorem get_score_from_ratio_mono {r s : ℝ} (h : r ≤ s) :
    get_score_from_ratio r ≤ get_score_from_ratio s := by
  rw [get_score_from_ratio_eq_clamped, get_score_from_ratio_eq_clamped]
  exact Int.floor_mono (clamped_score_real_mono h)

theorem get_score_from_ratio_nonneg (r : ℝ) : 0 ≤ get_score_from_ratio r := by
  rw [get_score_from_ratio_eq_clamped]
  exact Int.le_floor.mpr (by exact_mod_cast clamped_score_real_nonneg r)

theorem get_score_from_ratio_le_100 (r : ℝ) : get_score_from_ratio r ≤ 100 := by
  rw [get_score_from_ratio_eq_clamped]
  have h := Int.floor_mono (clamped_score_real_le_100 r)
  simpa using h

/-- C2: for every ratio `r` the scoring function returns exactly the integer
obtained by truncating toward zero `clamp(50 + 10 * ln(max(r, 0.01) / 12.4438), 0, 100)`;
the embedding is a pure function of `r` alone, matching the Python code, which
reads no mutable state. -/
theorem spec2proof_C2 (r : ℝ) : get_score_from_ratio r = spec_score_formula r := by
  unfold get_score_from_ratio spec_score_formula population_baseline_alpha_beta_ratio
  rw [max_comm r 0.01, mul_comm]

/-- C3: the scoring function maps the configured baseline 12.4438 to exactly 50,
is monotonically non-decreasing, stays inside `[0, 100]` for every `r ≥ 0`, and
agrees at 0 and at 0.01 (the clamped floor). -/
theorem spec2proof_C3 :
    get_score_from_ratio population_baseline_alpha_beta_ratio = 50 ∧
    (∀ r s : ℝ, r ≤ s → get_score_from_ratio r ≤ get_score_from_ratio s) ∧
    (∀ r : ℝ, 0 ≤ r → 0 ≤ get_score_from_ratio r ∧ get_score_from_ratio r ≤ 100) ∧
    get_score_from_ratio 0 = get_score_from_ratio 0.01 := by
  refine ⟨score_at_baseline, ?_, ?_, ?_⟩
  · intro r s h
    exact get_score_from_ratio_mono h
  · intro r _
    exact ⟨get_score_from_ratio_nonneg r, get_score_from_ratio_le_100 r⟩
  · have h : max (0.01 : ℝ) 0 = max 0.01 0.01 := by norm_num
    unfold get_score_from_ratio
    rw [h]

/-- Witness for C3: the monotonicity and range clauses applied at the
concrete ratios 1 and 2. -/
theorem spec2proof_C3_witness :
    (1 : ℝ) ≤ 2 ∧ get_score_from_ratio 1 ≤ get_score_from_ratio 2 ∧
    (0 : ℝ) ≤ 1 ∧ 0 ≤ get_score_from_ratio 1 ∧ get_score_from_ratio 1 ≤ 100 :=
  ⟨by norm_num, spec2proof_C3.2.1 1 2 (by norm_num), by norm_num,
    (spec2proof_C3.2.2.1 1 (by norm_num)).1, (spec2proof_C3.2.2.1 1 (by norm_num)).2⟩

theorem exp_five_lt : Real.exp 5 < 1244.38 := by
  have h1 : Real.exp 5 = Real.exp 1 ^ 5 := by
    rw [← Real.exp_nat_mul]
    norm_num
  have h2 : Real.exp 1 ^ 5 < 2.7182818286 ^ 5 :=
    pow_lt_pow_left₀ Real.exp_one_lt_d9 (Real.exp_pos 1).le (by norm_num)
  have h3 : (2.7182818286 : ℝ) ^ 5 < 1244.38 := by norm_num
  calc Real.exp 5 = Real.exp 1 ^ 5 := h1
    _ < 2.7182818286 ^ 5 := h2
    _ < 1244.38 := h3

/-- Any ratio at or below the 0.01 floor scores exactly 0: the raw score is
at most `50 - 10 * ln(1244.38) < 0`, so the clamp hits the lower bound. -/
theorem score_of_le_floor {r : ℝ} (h : r ≤ 0.01) : get_score_from_ratio r = 0 := by
  rw [get_score_from_ratio_eq_clamped]
  unfold clamped_score_real population_baseline_alpha_beta_ratio
  rw [max_eq_left h]
  have hlog : Real.log (0.01 / 12.4438) ≤ -5 := by
    rw [Real.log_le_iff_le_exp (by norm_num)]
    have hinv : (1244.38 : ℝ)⁻¹ ≤ (Real.exp 5)⁻¹ :=
      inv_anti₀ (Real.exp_pos 5) exp_five_lt.le
    calc (0.01 : ℝ) / 12.4438 = (1244.38 : ℝ)⁻¹ := by norm_num
      _ ≤ (Real.exp 5)⁻¹ := hinv
      _ = Real.exp (-5) := (Real.exp_neg 5).symm
  have hneg : 50 + Real.log (0.01 / 12.4438) * 10 ≤ 0 := by linarith
  rw [min_eq_right (le_trans hneg (by norm_num)), max_eq_left hneg]
  norm_num

theorem foldl_band_step_zero (seq : List String) (l : List ℚ)
    (h : ∀ x ∈ l, x = 0) (acc : ℚ × ℚ) :
    (seq.zip l).foldl band_step acc = acc := by
  induction seq generalizing l acc with
  | nil => simp
  | cons s rest ih =>
    cases l with
    | nil => simp
    | cons x xs =>
      have hx : x = 0 := h x (by simp)
      have hxs : ∀ y ∈ xs, y = 0 := fun y hy => h y (by simp [hy])
      subst hx
      have hstep : band_step acc (s, 0) = acc := by
        unfold band_step
        split_ifs <;> simp
      rw [List.zip_cons_cons, List.foldl_cons, hstep, ih xs hxs]

theorem band_totals_head (v0 v1 v2 v3 v4 : ℚ) :
    band_totals ([v0, v1, v2, v3, v4] ++ List.replicate 65 (0 : ℚ)) = (v1, v2 + v3) := by
  have hseq : band_sequence =
      ["theta", "alpha", "betaL", "betaH", "gamma"] ++
        ((CHANNELS.drop 1).flatMap fun _ => BANDS) := rfl
  unfold band_totals
  rw [hseq, List.zip_append (by simp), List.foldl_append]
  have h5 : List.foldl band_step ((0 : ℚ), (0 : ℚ))
      (List.zip ["theta", "alpha", "betaL", "betaH", "gamma"] [v0, v1, v2, v3, v4]) =
      (v1, v2 + v3) := by
    simp [band_step]
  rw [h5, foldl_band_step_zero _ _ (fun x hx => List.eq_of_mem_replicate hx)]

theorem band_totals_replicate_zero :
    band_totals (List.replicate 70 (0 : ℚ)) = (0, 0) := by
  have h : List.replicate 70 (0 : ℚ) =
      [0, 0, 0, 0, 0] ++ List.replicate 65 (0 : ℚ) := rfl
  rw [h, band_totals_head]
  norm_num

/-- Any packet whose first channel carries the five band values
`v0 .. v4` and whose remaining 65 entries are zero reduces to the ratio
`v1 / (v2 + v3)` when the beta total is nonzero. -/
theorem process_band_power_data_head (v0 v1 v2 v3 v4 : ℚ) (hβ : v2 + v3 ≠ 0) :
    process_band_power_data
      ⟨PowField.values ([v0, v1, v2, v3, v4] ++ List.replicate 65 (0 : ℚ))⟩ =
      some (v1 / (v2 + v3)) := by
  have hlen : ([v0, v1, v2, v3, v4] ++ List.replicate 65 (0 : ℚ)).length =
      CHANNELS.length * BANDS.length := by norm_num [CHANNELS, BANDS]
  show (if ([v0, v1, v2, v3, v4] ++ List.replicate 65 (0 : ℚ)).length =
        CHANNELS.length * BANDS.length then
      let totals := band_totals ([v0, v1, v2, v3, v4] ++ List.replicate 65 (0 : ℚ))
      if totals.2 = 0 then none else some (totals.1 / totals.2)
    else none) = some (v1 / (v2 + v3))
  rw [if_pos hlen]
  simp only [band_totals_head]
  simp [hβ]

/-- C5: `start_recording` is rejected with `DeviceNotConnected` when no
client with an active session exists, and with `AlreadyRecording` when the
recording flag is already set; in both cases the state is returned
unchanged (no worker, no timer, flag untouched) and nothing is emitted. -/
theorem spec2proof_C5 (d : ℚ) (s : AppState) :
    (client_session_active s = false →
      start_recording d s = (ApiResult.device_not_connected, s, [])) ∧
    (client_session_active s = true → s.is_recording = true →
      start_recording d s = (ApiResult.already_recording, s, [])) := by
  constructor
  · intro h
    simp [start_recording, h]
  · intro h h2
    simp [start_recording, h, h2]

/-- Witness for C5: both rejection branches at concrete states. -/
theorem spec2proof_C5_witness :
    (client_session_active state_no_client = false ∧
      start_recording 5 state_no_client = (ApiResult.device_not_connected, state_no_client, [])) ∧
    (client_session_active state_mid_recording = true ∧
      state_mid_recording.is_recording = true ∧
      start_recording 5 state_mid_recording = (ApiResult.already_recording, state_mid_recording, [])) :=
  ⟨⟨rfl, (spec2proof_C5 5 state_no_client).1 rfl⟩,
   ⟨rfl, rfl, (spec2proof_C5 5 state_mid_recording).2 rfl rfl⟩⟩

/-- C8: a recording-only reset leaves the score history empty, the buffer
empty and the recording flag false, is idempotent, and leaves the cortex
client (with its session identifiers) exactly as it was before either
call. -/
theorem spec2proof_C8 (s : AppState) (_h : s.is_recording = false) :
    s.reset_recording.scores = [] ∧
    s.reset_recording.data_buffer = [] ∧
    s.reset_recording.is_recording = false ∧
    s.reset_recording.reset_recording = s.reset_recording ∧
    s.reset_recording.cortex_client = s.cortex_client ∧
    s.reset_recording.reset_recording.cortex_client = s.cortex_client := by
  simp [AppState.reset_recording]

/-- Witness for C8: the reset applied to a concrete idle state. -/
theorem spec2proof_C8_witness :
    state_no_client.is_recording = false ∧
    state_no_client.reset_recording.scores = [] ∧
    state_no_client.reset_recording.is_recording = false ∧
    state_no_client.reset_recording.reset_recording = state_no_client.reset_recording ∧
    state_no_client.reset_recording.cortex_client = state_no_client.cortex_client :=
  ⟨rfl, (spec2proof_C8 state_no_client rfl).1, (spec2proof_C8 state_no_client rfl).2.2.1,
    (spec2proof_C8 state_no_client rfl).2.2.2.1, (spec2proof_C8 state_no_client rfl).2.2.2.2.1⟩

theorem run_buf_trace_inv (ops : List BufOp) (st : BufTraceState) :
    (ops.foldl buf_op_step st).windows.flatten ++ (ops.foldl buf_op_step st).buffer =
      st.windows.flatten ++ st.buffer ++ appended_samples ops := by
  induction ops generalizing st with
  | nil => simp [appended_samples]
  | cons op rest ih =>
    cases op with
    | append p =>
      rw [List.foldl_cons, ih]
      simp [buf_op_step, appended_samples]
    | drain =>
      rw [List.foldl_cons, ih]
      simp [buf_op_step, appended_samples]

/-- C9: a drain hands the whole current buffer to reduction and installs a
fresh empty buffer; over any interleaving of appends and drains, the
concatenation of all drained windows followed by the residual buffer is
exactly the appended samples in arrival order — each appended sample lands
in exactly one window (or is still buffered), none is lost, none is
double-delivered; and the cadence worker's own drain leaves an empty
buffer behind. -/
theorem spec2proof_C9 :
    (∀ ops : List BufOp,
      (run_buf_trace ops).windows.flatten ++ (run_buf_trace ops).buffer =
        appended_samples ops) ∧
    (∀ st : BufTraceState,
      buf_op_step st BufOp.drain = ⟨[], st.windows ++ [st.buffer]⟩) ∧
    (∀ s : AppState, (process_data_window_tick s).1.data_buffer = []) := by
  refine ⟨?_, fun st => rfl, ?_⟩
  · intro ops
    have h := run_buf_trace_inv ops ⟨[], []⟩
    simpa [run_buf_trace] using h
  · intro s
    by_cases h : s.data_buffer = []
    · simp [process_data_window_tick, h]
    · simp only [process_data_window_tick, if_neg h]
      split <;> rfl

/-- C10: the standalone headset re-query returns the received list as-is,
the empty list included, and can never fail with `NoHeadsetsFound`; the
initial handshake's query, by contrast, fails on an empty result. -/
theorem spec2proof_C10 :
    (∀ hs, query_headsets (RpcOutcome.result hs) = Except.ok hs) ∧
    (∀ reply, query_headsets reply ≠ Except.error CortexError.no_headsets_found) ∧
    connect_and_authorize_query (RpcOutcome.result []) =
      Except.error CortexError.no_headsets_found := by
  refine ⟨fun hs => rfl, ?_, rfl⟩
  intro reply
  cases reply <;> simp [query_headsets, wait_for_response_headsets]

/-- Counterexample for C6: a frame that carries a reply identifier *not*
matching any outstanding request together with a session identifier and an
allow-listed telemetry field. The spec's ordered rule (with an empty
outstanding-request set) routes it to the telemetry callback; the code
stores any `id`-bearing frame into the reply table unconditionally. -/
theorem spec2proof_C6_counterexample :
    receive_loop_classify true ⟨some 7, some "s", ["pow"], false⟩ =
      RouteAction.store_reply 7 ∧
    spec_classify [] ⟨some 7, some "s", ["pow"], false⟩ = RouteAction.telemetry ∧
    RouteAction.store_reply 7 ≠ RouteAction.telemetry := by
  refine ⟨rfl, by decide, by decide⟩

/-- C6 amended: the read loop applies the cases in this order: (1) any
frame carrying a reply identifier — whether or not it matches an
outstanding request — is stored into the reply table under that
identifier; (2) otherwise a frame carrying a session identifier, while a
telemetry callback is registered, with at least one allow-listed field is
passed whole to the callback, and without such a field is silently dropped
(even if it carries a warning); (3) otherwise a frame carrying a warning
field is logged and discarded; (4) any other frame is discarded; a frame
lacking a reply identifier is never routed as telemetry unless it carries
an allow-listed field. -/
theorem spec2proof_C6_amended (f : Frame) (cb : Bool) :
    (∀ i, f.id = some i → receive_loop_classify cb f = RouteAction.store_reply i) ∧
    (f.id = none → (f.sid.isSome && cb) = true → has_stream_key f = true →
      receive_loop_classify cb f = RouteAction.telemetry) ∧
    (f.id = none → (f.sid.isSome && cb) = true → has_stream_key f = false →
      receive_loop_classify cb f = RouteAction.discard) ∧
    (f.id = none → (f.sid.isSome && cb) = false → f.warning = true →
      receive_loop_classify cb f = RouteAction.log_warning) ∧
    (f.id = none → (f.sid.isSome && cb) = false → f.warning = false →
      receive_loop_classify cb f = RouteAction.discard) ∧
    (f.id = none → receive_loop_classify cb f = RouteAction.telemetry →
      has_stream_key f = true) := by
  obtain ⟨fid, fsid, fkeys, fwarn⟩ := f
  refine ⟨?_, ?_, ?_, ?_, ?_, ?_⟩
  · intro i hi
    simp only [] at hi
    subst hi
    rfl
  · intro h1 h2 h3
    simp only [] at h1
    subst h1
    simp [receive_loop_classify, h2, h3]
  · intro h1 h2 h3
    simp only [] at h1
    subst h1
    simp [receive_loop_classify, h2, h3]
  · intro h1 h2 h3
    simp only [] at h1
    subst h1
    have h3' : fwarn = true := h3
    subst h3'
    simp [receive_loop_classify, h2]
  · intro h1 h2 h3
    simp only [] at h1
    subst h1
    have h3' : fwarn = false := h3
    subst h3'
    simp [receive_loop_classify, h2]
  · intro h1 h2
    simp only [] at h1
    subst h1
    by_contra h3
    rw [Bool.not_eq_true] at h3
    rcases hc : (Option.isSome fsid && cb) with _ | _
    · rcases hw : fwarn with _ | _ <;>
        simp [receive_loop_classify, hc, hw] at h2
    · simp [receive_loop_classify, hc, h3] at h2

/-- Witness for C6: the reply-identifier case at a concrete frame. -/
theorem spec2proof_C6_witness :
    Frame.id ⟨some 3, some "s", ["pow"], false⟩ = some 3 ∧
    receive_loop_classify true ⟨some 3, some "s", ["pow"], false⟩ =
      RouteAction.store_reply 3 :=
  ⟨rfl, (spec2proof_C6_amended ⟨some 3, some "s", ["pow"], false⟩ true).1 3 rfl⟩

/-- C7: a sample with a missing or non-list power field, or of a length
other than 70, or with zero summed beta power, yields no ratio; such a
sample is dropped without affecting the rest of its window; and a window
with no usable ratio drains the buffer, appends nothing to the score
history, emits nothing, and is not an error. -/
theorem spec2proof_C7 :
    process_band_power_data ⟨PowField.missing⟩ = none ∧
    process_band_power_data ⟨PowField.notList⟩ = none ∧
    (∀ l : List ℚ, l.length ≠ 70 →
      process_band_power_data ⟨PowField.values l⟩ = none) ∧
    (∀ l : List ℚ, (band_totals l).2 = 0 →
      process_band_power_data ⟨PowField.values l⟩ = none) ∧
    (∀ s : AppState, ∀ pre post : List PowPacket, ∀ bad : PowPacket,
      process_band_power_data bad = none →
      process_data_window_tick { s with data_buffer := pre ++ bad :: post } =
        process_data_window_tick { s with data_buffer := pre ++ post }) ∧
    (∀ s : AppState, (s.data_buffer.map process_band_power_data).filterMap id = [] →
      process_data_window_tick s = ({ s with data_buffer := [] }, [])) := by
  have hlen : CHANNELS.length * BANDS.length = 70 := rfl
  refine ⟨rfl, rfl, ?_, ?_, ?_, ?_⟩
  · intro l h
    simp [process_band_power_data, hlen, h]
  · intro l h
    simp [process_band_power_data, hlen, h]
  · intro s pre post bad hbad
    obtain ⟨cc, st, pt, sp, sc, db, ir⟩ := s
    by_cases hpp : pre ++ post = []
    · obtain ⟨hpre, hpost⟩ := List.append_eq_nil.mp hpp
      subst hpre hpost
      simp [process_data_window_tick, hbad]
    · have h1 : pre ++ bad :: post ≠ [] := by simp
      have hv : (List.map process_band_power_data (pre ++ bad :: post)).filterMap id =
          (List.map process_band_power_data (pre ++ post)).filterMap id := by
        simp [hbad]
      simp only [process_data_window_tick, if_neg h1, if_neg hpp]
      simp only [hv]
  · intro s h
    obtain ⟨cc, st, pt, sp, sc, db, ir⟩ := s
    by_cases hb : db = []
    · subst hb
      simp [process_data_window_tick]
    · simp only [] at h
      simp [process_data_window_tick, hb, h]

/-- Witness for C7: the wrong-length case, the zero-beta case and the
silently-skipped window at concrete inputs. -/
theorem spec2proof_C7_witness :
    (([] : List ℚ).length ≠ 70 ∧
      process_band_power_data ⟨PowField.values []⟩ = none) ∧
    ((band_totals (List.replicate 70 0)).2 = 0 ∧
      process_band_power_data ⟨PowField.values (List.replicate 70 0)⟩ = none) ∧
    ((state_malformed.data_buffer.map process_band_power_data).filterMap id = [] ∧
      process_data_window_tick state_malformed = ({ state_malformed with data_buffer := [] }, [])) :=
  ⟨⟨by decide, spec2proof_C7.2.2.1 [] (by decide)⟩,
   ⟨by rw [band_totals_replicate_zero],
    spec2proof_C7.2.2.2.1 (List.replicate 70 0) (by rw [band_totals_replicate_zero])⟩,
   ⟨by decide, spec2proof_C7.2.2.2.2.2 state_malformed (by decide)⟩⟩

theorem spec_sample_sums_head (v0 v1 v2 v3 v4 : ℚ) (hβ : v2 + v3 ≠ 0) :
    spec_sample_sums
      ⟨PowField.values ([v0, v1, v2, v3, v4] ++ List.replicate 65 (0 : ℚ))⟩ =
      some (v1, v2 + v3) := by
  show (if ([v0, v1, v2, v3, v4] ++ List.replicate 65 (0 : ℚ)).length = 70 then
      if (band_totals ([v0, v1, v2, v3, v4] ++ List.replicate 65 (0 : ℚ))).2 = 0 then none
      else some (band_totals ([v0, v1, v2, v3, v4] ++ List.replicate 65 (0 : ℚ)))
    else none) = some (v1, v2 + v3)
  rw [if_pos (by norm_num), band_totals_head]
  simp [hβ]

/-- What one cadence drain does when at least one buffered sample yields a
usable ratio: the buffer is emptied and the score of the mean of the valid
per-sample ratios is appended to the history and emitted. -/
theorem process_data_window_tick_eq (s : AppState)
    (h : (s.data_buffer.map process_band_power_data).filterMap id ≠ []) :
    process_data_window_tick s =
      ({ s with
          data_buffer := []
          scores := s.scores ++ [get_score_from_ratio
            ((np_mean ((s.data_buffer.map process_band_power_data).filterMap id) : ℚ) : ℝ)] },
       [Event.new_score (get_score_from_ratio
          ((np_mean ((s.data_buffer.map process_band_power_data).filterMap id) : ℚ) : ℝ))]) := by
  have hb : s.data_buffer ≠ [] := by
    intro he
    apply h
    rw [he]
    rfl
  obtain ⟨cc, st, pt, sp, sc, db, ir⟩ := s
  simp only [] at h hb
  simp [process_data_window_tick, hb]
  simpa using h

/-- C1 amended: reducing a window agrees exactly with a direct call to the
scoring function on the mean of the per-sample ratios (each valid sample's
own `sumAlpha / sumBeta`): that score — not the score of the ratio of the
window-wide sums — is appended to the history and published. -/
theorem spec2proof_C1_amended (s : AppState)
    (h : (s.data_buffer.map process_band_power_data).filterMap id ≠ []) :
    process_data_window_tick s =
      ({ s with
          data_buffer := []
          scores := s.scores ++ [get_score_from_ratio
            ((np_mean ((s.data_buffer.map process_band_power_data).filterMap id) : ℚ) : ℝ)] },
       [Event.new_score (get_score_from_ratio
          ((np_mean ((s.data_buffer.map process_band_power_data).filterMap id) : ℚ) : ℝ))]) :=
  process_data_window_tick_eq s h

/-- Counterexample for C1: on the window `[pktA, pktB]` the code publishes
`score(mean of per-sample ratios) = score(12.4438) = 50`, while the spec's
`score(sumAlpha / sumBeta) = score(24.8876 / 10001) = 0`. -/
theorem spec2proof_C1_counterexample :
    (process_data_window_tick state_two_packets).2 = [Event.new_score 50] ∧
    spec_window_score state_two_packets.data_buffer = some 0 ∧
    Event.new_score 50 ≠ Event.new_score 0 := by
  have hA : process_band_power_data pktA = some (24.8876 : ℚ) := by
    have h1 := process_band_power_data_head 0 24.8876 1 0 0 (by norm_num)
    rw [show (24.8876 / (1 + 0) : ℚ) = 24.8876 by norm_num] at h1
    exact h1
  have hB : process_band_power_data pktB = some (0 : ℚ) := by
    have h1 := process_band_power_data_head 0 0 10000 0 0 (by norm_num)
    rw [show (0 / (10000 + 0) : ℚ) = 0 by norm_num] at h1
    exact h1
  have hbuf : state_two_packets.data_buffer = [pktA, pktB] := rfl
  have hvalid : (state_two_packets.data_buffer.map process_band_power_data).filterMap id =
      [(24.8876 : ℚ), 0] := by
    rw [hbuf]
    simp [hA, hB]
  refine ⟨?_, ?_, by decide⟩
  · rw [process_data_window_tick_eq state_two_packets
      (by rw [hvalid]; exact List.cons_ne_nil _ _)]
    have hmean : ((np_mean [(24.8876 : ℚ), 0] : ℚ) : ℝ) =
        population_baseline_alpha_beta_ratio := by
      rw [show np_mean [(24.8876 : ℚ), 0] = 12.4438 by norm_num [np_mean]]
      unfold population_baseline_alpha_beta_ratio
      norm_num
    rw [show (({ state_two_packets with
          data_buffer := []
          scores := state_two_packets.scores ++ [get_score_from_ratio
            ((np_mean ((state_two_packets.data_buffer.map process_band_power_data).filterMap id) : ℚ) : ℝ)] },
        [Event.new_score (get_score_from_ratio
          ((np_mean ((state_two_packets.data_buffer.map process_band_power_data).filterMap id) : ℚ) : ℝ))]).2 : List Event) =
        [Event.new_score (get_score_from_ratio
          ((np_mean ((state_two_packets.data_buffer.map process_band_power_data).filterMap id) : ℚ) : ℝ))] from rfl]
    rw [hvalid, hmean, score_at_baseline]
  · have hsA : spec_sample_sums pktA = some ((24.8876 : ℚ), 1 + 0) :=
      spec_sample_sums_head 0 24.8876 1 0 0 (by norm_num)
    have hsB : spec_sample_sums pktB = some ((0 : ℚ), 10000 + 0) :=
      spec_sample_sums_head 0 0 10000 0 0 (by norm_num)
    have hsums : state_two_packets.data_buffer.filterMap spec_sample_sums =
        [((24.8876 : ℚ), (1 + 0 : ℚ)), ((0 : ℚ), (10000 + 0 : ℚ))] := by
      rw [hbuf]
      simp [hsA, hsB]
    unfold spec_window_score
    rw [hsums, if_neg (List.cons_ne_nil _ _)]
    have hq : (([((24.8876 : ℚ), (1 + 0 : ℚ)), ((0 : ℚ), (10000 + 0 : ℚ))].map Prod.fst).sum /
        ([((24.8876 : ℚ), (1 + 0 : ℚ)), ((0 : ℚ), (10000 + 0 : ℚ))].map Prod.snd).sum : ℚ) =
        24.8876 / 10001 := by
      norm_num
    rw [hq]
    have hle : ((24.8876 / 10001 : ℚ) : ℝ) ≤ 0.01 := by
      have h1 : (24.8876 / 10001 : ℚ) ≤ 1 / 100 := by norm_num
      have h2 : ((24.8876 / 10001 : ℚ) : ℝ) ≤ ((1 / 100 : ℚ) : ℝ) := by
        exact_mod_cast h1
      calc ((24.8876 / 10001 : ℚ) : ℝ) ≤ ((1 / 100 : ℚ) : ℝ) := h2
        _ = 0.01 := by norm_num
    rw [score_of_le_floor hle]

/-- Witness for C1 amended: the reduction of a one-sample window. -/
theorem spec2proof_C1_witness :
    (state_one_packet.data_buffer.map process_band_power_data).filterMap id ≠ [] ∧
    process_data_window_tick state_one_packet =
      ({ state_one_packet with
          data_buffer := []
          scores := state_one_packet.scores ++ [get_score_from_ratio
            ((np_mean ((state_one_packet.data_buffer.map process_band_power_data).filterMap id) : ℚ) : ℝ)] },
       [Event.new_score (get_score_from_ratio
          ((np_mean ((state_one_packet.data_buffer.map process_band_power_data).filterMap id) : ℚ) : ℝ))]) := by
  have hW : process_band_power_data pktW = some (1 : ℚ) := by
    have h1 := process_band_power_data_head 0 1 1 0 0 (by norm_num)
    rw [show ((1 : ℚ) / (1 + 0)) = 1 by norm_num] at h1
    exact h1
  have hne : (state_one_packet.data_buffer.map process_band_power_data).filterMap id ≠ [] := by
    show (([pktW].map process_band_power_data).filterMap id) ≠ []
    simp [hW]
  exact ⟨hne, spec2proof_C1_amended state_one_packet hne⟩

/-- C4 amended: when the recording timer fires, the system publishes a
`recording_ended` notice carrying the arithmetic mean of the score history
truncated toward zero to an integer (0 when the history is empty), and
performs a recording-only reset: the cortex client and its session
identifiers are untouched, so the session stays active rather than
returning to idle. -/
theorem spec2proof_C4_amended (s : AppState) :
    (end_recording_session s).2 =
      [Event.recording_ended
        (if s.scores = [] then 0
         else ratTrunc ((s.scores.sum : ℚ) / (s.scores.length : ℚ)))] ∧
    (s.scores = [] → (end_recording_session s).2 = [Event.recording_ended 0]) ∧
    (end_recording_session s).1 = s.reset_recording ∧
    (end_recording_session s).1.cortex_client = s.cortex_client ∧
    client_session_active (end_recording_session s).1 = client_session_active s := by
  refine ⟨rfl, ?_, rfl, rfl, rfl⟩
  intro h
  simp [end_recording_session, h]

/-- Counterexample for C4: with score history `[1, 2]` the published
average is the truncated value 1, which differs from the arithmetic mean
3/2. -/
theorem spec2proof_C4_counterexample :
    (end_recording_session state_scores_one_two).2 = [Event.recording_ended 1] ∧
    ((1 : ℤ) : ℚ) ≠
      (state_scores_one_two.scores.sum : ℚ) / (state_scores_one_two.scores.length : ℚ) := by
  have hsc : state_scores_one_two.scores = [1, 2] := rfl
  constructor
  · show [Event.recording_ended
        (if state_scores_one_two.scores = [] then 0
         else ratTrunc ((state_scores_one_two.scores.sum : ℚ) /
           (state_scores_one_two.scores.length : ℚ)))] = [Event.recording_ended 1]
    rw [hsc, if_neg (List.cons_ne_nil _ _)]
    have hmean : ((([1, 2] : List ℤ).sum : ℚ) / (([1, 2] : List ℤ).length : ℚ)) = 3 / 2 := by
      norm_num
    rw [hmean]
    have htr : ratTrunc (3 / 2) = 1 := by
      unfold ratTrunc
      rw [if_pos (by norm_num)]
      rw [Int.floor_eq_iff]
      norm_num
    rw [htr]
  · rw [hsc]
    norm_num

/-- Witness for C4 amended: the empty-history branch at a concrete state. -/
theorem spec2proof_C4_witness :
    state_no_client.scores = [] ∧
    (end_recording_session state_no_client).2 = [Event.recording_ended 0] :=
  ⟨rfl, (spec2proof_C4_amended state_no_client).2.1 rfl⟩

end MvpBackup
